import Mathlib

/-!
Verification of the target-derivation engine of the AI-MWD-Copilot
repository (`src/targets.py`): composite porosity, rule-based fluid
classification, simplified pore-pressure estimate, and the orchestrator
`compute_all_targets`.

Modelling choices (shallow embedding):
* A pandas cell holding a float is `Option ℚ`: `none` models NaN / a
  missing value, `some q` a finite float, with float arithmetic idealised
  as exact rational arithmetic.  All numeric constants of the source are
  decimal literals, represented exactly in `ℚ`.
* A DataFrame is a row count together with an association list of named
  columns; a column is either numeric (`List (Option ℚ)`) or categorical
  (`List String`).  `getCol`/`getNum` model `df[c]` and `c in df.columns`.
* `numpy` rules embedded: `np.clip(x, 0, 1)` is `min (max x 0) 1` and
  maps NaN to NaN; `np.nanmean` averages the non-NaN entries and is NaN
  when none exist; `fillna`/`nan_to_num` replace `none` by a default;
  any arithmetic on NaN yields NaN (`Option.map`).
* The default parameter values of `_phi_from_density` (2650.0, 1000.0)
  are supplied at its single call site, as the source does via defaults.
* `compute_all_targets(df, inplace)` returns in the model a pair:
  the returned table, and the table the caller's reference sees after
  the call (the same object when `inplace`, the untouched original
  otherwise).
-/

abbrev NumCol := List (Option ℚ)

inductive Column where
  | num : NumCol → Column
  | str : List String → Column
deriving DecidableEq

structure DataFrame where
  nrows : ℕ
  cols : List (String × Column)
deriving DecidableEq

def DataFrame.getCol (df : DataFrame) (c : String) : Option Column :=
  (df.cols.find? (fun p => p.1 == c)).map (fun p => p.2)

def DataFrame.getNum (df : DataFrame) (c : String) : Option NumCol :=
  match df.getCol c with
  | some (Column.num l) => some l
  | _ => none

def DataFrame.hasCol (df : DataFrame) (c : String) : Bool :=
  (df.getCol c).isSome

/-- `df[c] = v` for a fresh or existing column name. -/
def DataFrame.setCol (df : DataFrame) (c : String) (v : Column) : DataFrame :=
  if df.hasCol c then
    ⟨df.nrows, df.cols.map (fun p => if p.1 == c then (c, v) else p)⟩
  else
    ⟨df.nrows, df.cols ++ [(c, v)]⟩

/-! Column-name constants of `targets.py`. -/

def bulk_col : String := "Bulk Density - Compensated kg/m3"

def neutron_col : String := "Neutron Porosity (Sandstone) Euc"

def resist_col : String := "Resistivity Phase - Corrected - 2MHz ohm.m"

def gas_col : String := "Chrom 1 Total Gas Euc"

def depth_col : String := "DEPTH"

def mud_col : String := "Mud Weight In kg/m3"

def dc_col : String := "Corrected Drilling Exponent unitless"

def hydro_col : String := "P_Hydrostatic"

def phi_out_col : String := "PHI_COMBINED"

def fluid_out_col : String := "FLUID_CLASS"

def pressure_out_col : String := "PREDICTED_PORE_PRESSURE_PSI"

def background_label : String := "Background"

def pay_zone_label : String := "Pay Zone"

def potential_label : String := "Potential Reservoir"

/-- `np.clip(x, 0.0, 1.0)` on a finite value. -/
def clip01 (q : ℚ) : ℚ := min (max q 0) 1

/-- `np.nanmean` of one stacked cross-row slice: mean of the non-NaN
entries, NaN when there are none. -/
def nanmean (xs : List (Option ℚ)) : Option ℚ :=
  let vs := xs.filterMap id
  if vs = [] then none else some (vs.sum / (vs.length : ℚ))

/-- `_phi_from_density` of `targets.py`, per cell: Wyllie-style porosity
`(rho_matrix - rho_bulk) / (rho_matrix - rho_fluid)`, non-finite results
becoming NaN, clipped to `[0, 1]`. -/
def _phi_from_density (rho_bulk : Option ℚ) (rho_matrix rho_fluid : ℚ) : Option ℚ :=
  if rho_matrix - rho_fluid = 0 then none
  else rho_bulk.map (fun r => clip01 ((rho_matrix - r) / (rho_matrix - rho_fluid)))

/-- Neutron percent-vs-fraction normalisation of `compute_phi_combined`:
`np.where(np.nan_to_num(neutron) > 1.5, neutron / 100.0, neutron)`. -/
def norm_neutron (x : Option ℚ) : Option ℚ :=
  x.map (fun v => if 1.5 < v then v / 100.0 else v)

/-- `compute_phi_combined` of `targets.py`: stack the available per-channel
estimates, `np.nanmean` across them per row, clip to `[0, 1]`; an all-NaN
column of length `n` when no input channel exists. -/
def compute_phi_combined (df : DataFrame) : NumCol :=
  let phi_estimates : List NumCol :=
    (match df.getNum bulk_col with
      | some col => [col.map (fun r => _phi_from_density r 2650.0 1000.0)]
      | none => []) ++
    (match df.getNum neutron_col with
      | some col => [col.map norm_neutron]
      | none => [])
  if phi_estimates = [] then
    List.replicate df.nrows none
  else
    (List.range df.nrows).map (fun i =>
      (nanmean (phi_estimates.map (fun col => col.getD i none))).map clip01)

/-- One row of the classification of `compute_fluid_class`: the
`cond_pot` / `cond_pay` masks with `fillna(0)`, first match winning. -/
def fluid_class_row (resist gas phi : Option ℚ) : String :=
  let r := resist.getD 0
  let g := gas.getD 0
  let p := phi.getD 0
  if 100 ≤ r ∨ (50 ≤ g ∧ 0.05 ≤ p) then potential_label
  else if 20 ≤ r ∨ 10 ≤ g then pay_zone_label
  else background_label

/-- The per-row value of column `c` as `compute_fluid_class` sees it: a
missing column is an all-NaN series of length `nrows`. -/
def rowVal (df : DataFrame) (c : String) (i : ℕ) : Option ℚ :=
  ((df.getNum c).getD (List.replicate df.nrows none)).getD i none

/-- `compute_fluid_class` of `targets.py`: all-`Background` when both the
resistivity and the gas column are absent, else the rule cascade per row. -/
def compute_fluid_class (df : DataFrame) (phi_col : String) : List String :=
  if (df.getNum resist_col).isNone ∧ (df.getNum gas_col).isNone then
    List.replicate df.nrows background_label
  else
    (List.range df.nrows).map (fun i =>
      fluid_class_row (rowVal df resist_col i) (rowVal df gas_col i) (rowVal df phi_col i))

/-- `compute_pore_pressure` of `targets.py`: hydrostatic baseline from mud
weight (per-row fallback 1000.0) and depth (per-row fallback 0.0), or from a
`P_Hydrostatic` Pa column, or zero; anomaly `(1.0 - dc) * (1000.0 / 0.1)`
when the drilling-exponent column exists (NaN propagating); sum, NaN kept
as NaN, finite values clipped to `[0, ∞)`. -/
def compute_pore_pressure (df : DataFrame) : NumCol :=
  let n := df.nrows
  let grav : ℚ := 9.80665
  let pa_to_psi : ℚ := 0.00014503773773020923
  let p_hydro_psi : List ℚ :=
    match df.getNum mud_col, df.getNum depth_col with
    | some mud, some depth =>
        (List.range n).map (fun i =>
          ((mud.getD i none).getD 1000.0 * grav * ((depth.getD i none).getD 0.0)) * pa_to_psi)
    | _, _ =>
        match df.getNum hydro_col with
        | some ph => (List.range n).map (fun i => ((ph.getD i none).getD 0) * pa_to_psi)
        | none => List.replicate n 0
  let anomaly : NumCol :=
    match df.getNum dc_col with
    | some dc =>
        (List.range n).map (fun i =>
          (dc.getD i none).map (fun d => (1.0 - d) * (1000.0 / 0.1)))
    | none => List.replicate n (some 0)
  (List.range n).map (fun i =>
    (anomaly.getD i none).map (fun a => max ((p_hydro_psi.getD i 0) + a) 0))

/-- `compute_all_targets` of `targets.py`.  Result: `(returned table,
table seen through the caller's reference after the call)`. -/
def compute_all_targets (df : DataFrame) (inplace : Bool) : DataFrame × DataFrame :=
  let df1 := if df.hasCol phi_out_col then df
    else df.setCol phi_out_col (Column.num (compute_phi_combined df))
  let df2 := if df1.hasCol fluid_out_col then df1
    else df1.setCol fluid_out_col (Column.str (compute_fluid_class df1 phi_out_col))
  let df3 := if df2.hasCol pressure_out_col then df2
    else df2.setCol pressure_out_col (Column.num (compute_pore_pressure df2))
  (df3, if inplace then df3 else df)

/-- The per-row pore-pressure value on the main branch (all three input
columns present, finite mud weight `m`, depth `d`, exponent `e`). -/
def pressRow (m d e : ℚ) : ℚ :=
  max ((m * 9.80665 * d) * 0.00014503773773020923 + (1.0 - e) * (1000.0 / 0.1)) 0

/-! ### Generic row-evaluation lemmas for the three estimators -/

theorem phi_row_both (df : DataFrame) (bulk nc : NumCol) (i : ℕ)
    (hb : df.getNum bulk_col = some bulk) (hn : df.getNum neutron_col = some nc)
    (hi : i < df.nrows) (bc ncc : Option ℚ)
    (hbi : bulk[i]? = some bc) (hni : nc[i]? = some ncc) :
    (compute_phi_combined df)[i]? =
      some ((nanmean [_phi_from_density bc 2650.0 1000.0, norm_neutron ncc]).map clip01) := by
  simp [compute_phi_combined, hb, hn, List.getD_eq_getElem?_getD,
    List.getElem?_range hi, hbi, hni]

theorem phi_row_bulk (df : DataFrame) (bulk : NumCol) (i : ℕ)
    (hb : df.getNum bulk_col = some bulk) (hn : df.getNum neutron_col = none)
    (hi : i < df.nrows) (bc : Option ℚ) (hbi : bulk[i]? = some bc) :
    (compute_phi_combined df)[i]? =
      some ((nanmean [_phi_from_density bc 2650.0 1000.0]).map clip01) := by
  simp [compute_phi_combined, hb, hn, List.getD_eq_getElem?_getD,
    List.getElem?_range hi, hbi]

theorem phi_row_neutron (df : DataFrame) (nc : NumCol) (i : ℕ)
    (hb : df.getNum bulk_col = none) (hn : df.getNum neutron_col = some nc)
    (hi : i < df.nrows) (ncc : Option ℚ) (hni : nc[i]? = some ncc) :
    (compute_phi_combined df)[i]? =
      some ((nanmean [norm_neutron ncc]).map clip01) := by
  simp [compute_phi_combined, hb, hn, List.getD_eq_getElem?_getD,
    List.getElem?_range hi, hni]

theorem phi_absent (df : DataFrame)
    (hb : df.getNum bulk_col = none) (hn : df.getNum neutron_col = none) :
    compute_phi_combined df = List.replicate df.nrows none := by
  simp [compute_phi_combined, hb, hn]

theorem fluid_gate (df : DataFrame) (phi_col : String)
    (hr : df.getNum resist_col = none) (hg : df.getNum gas_col = none) :
    compute_fluid_class df phi_col = List.replicate df.nrows background_label := by
  simp [compute_fluid_class, hr, hg]

theorem fluid_row (df : DataFrame) (phi_col : String) (i : ℕ)
    (h : (df.getNum resist_col).isSome ∨ (df.getNum gas_col).isSome)
    (hi : i < df.nrows) :
    (compute_fluid_class df phi_col)[i]? =
      some (fluid_class_row (rowVal df resist_col i) (rowVal df gas_col i)
        (rowVal df phi_col i)) := by
  have hcond : ¬(df.getNum resist_col = none ∧ df.getNum gas_col = none) := by
    rcases h with h | h <;> simp [Option.isSome_iff_ne_none] at h <;> tauto
  simp [compute_fluid_class, hcond, List.getElem?_range hi]

theorem pore_pressure_row (df : DataFrame) (mud depth dc : NumCol) (i : ℕ)
    (hm : df.getNum mud_col = some mud) (hd : df.getNum depth_col = some depth)
    (hc : df.getNum dc_col = some dc) (hi : i < df.nrows)
    (mw dv : Option ℚ) (dcv : Option ℚ)
    (hmi : mud[i]? = some mw) (hdi : depth[i]? = some dv) (hci : dc[i]? = some dcv) :
    (compute_pore_pressure df)[i]? =
      some (dcv.map (fun e =>
        max ((mw.getD 1000.0 * 9.80665 * dv.getD 0.0) * 0.00014503773773020923
          + (1.0 - e) * (1000.0 / 0.1)) 0)) := by
  simp [compute_pore_pressure, hm, hd, hc, List.getD_eq_getElem?_getD,
    List.getElem?_range hi, hmi, hdi, hci]
  cases dcv <;> rfl

theorem pore_pressure_all_absent (df : DataFrame)
    (h : df.getNum mud_col = none ∨ df.getNum depth_col = none)
    (hhy : df.getNum hydro_col = none) (hdc : df.getNum dc_col = none) :
    compute_pore_pressure df = List.replicate df.nrows (some 0) := by
  apply List.ext_getElem?
  intro i
  by_cases hi : i < df.nrows
  · rcases h with h | h <;>
      simp [compute_pore_pressure, h, hhy, hdc, List.getElem?_range hi,
        List.getD_eq_getElem?_getD, List.getElem?_replicate, hi]
  · have h1 : df.nrows ≤ i := Nat.le_of_not_lt hi
    rcases h with h | h <;>
      simp [compute_pore_pressure, h, hhy, hdc, List.getElem?_eq_none, h1]

/-! ### Output lengths: each estimator returns one value per row -/

theorem phi_length (df : DataFrame) : (compute_phi_combined df).length = df.nrows := by
  unfold compute_phi_combined
  cases hb : df.getNum bulk_col <;> cases hn : df.getNum neutron_col <;> simp [hb, hn]

theorem fluid_length (df : DataFrame) (phi_col : String) :
    (compute_fluid_class df phi_col).length = df.nrows := by
  unfold compute_fluid_class
  split <;> simp

theorem pore_pressure_length (df : DataFrame) :
    (compute_pore_pressure df).length = df.nrows := by
  simp [compute_pore_pressure]

/-! ### Arithmetic helper lemmas -/

theorem nanmean_pair (a b : ℚ) : nanmean [some a, some b] = some ((a + b) / 2) := by
  simp [nanmean]

theorem nanmean_single (a : ℚ) : nanmean [some a] = some a := by
  simp [nanmean]

theorem nanmean_none_left (a : ℚ) : nanmean [none, some a] = some a := by
  simp [nanmean]

theorem nanmean_none_right (a : ℚ) : nanmean [some a, none] = some a := by
  simp [nanmean]

theorem nanmean_none_pair : nanmean [(none : Option ℚ), none] = none := by
  simp [nanmean]

theorem nanmean_none_single : nanmean [(none : Option ℚ)] = none := by
  simp [nanmean]

theorem clip01_of_mem (q : ℚ) (h0 : 0 ≤ q) (h1 : q ≤ 1) : clip01 q = q := by
  unfold clip01
  rw [max_eq_left h0, min_eq_left h1]

theorem clip01_of_ge (q : ℚ) (h : 1 ≤ q) : clip01 q = 1 := by
  unfold clip01
  rw [max_eq_left (le_trans (by norm_num) h), min_eq_right h]

theorem clip01_of_le (q : ℚ) (h : q ≤ 0) : clip01 q = 0 := by
  unfold clip01
  rw [max_eq_right h, min_eq_left (by norm_num)]

theorem clip01_bounds (q : ℚ) : 0 ≤ clip01 q ∧ clip01 q ≤ 1 := by
  unfold clip01
  exact ⟨le_min (le_max_right q 0) (by norm_num), min_le_right _ _⟩

theorem clip01_idem (q : ℚ) : clip01 (clip01 q) = clip01 q :=
  clip01_of_mem _ (clip01_bounds q).1 (clip01_bounds q).2

theorem phi_density_some (r : ℚ) :
    _phi_from_density (some r) 2650.0 1000.0 =
      some (clip01 ((2650.0 - r) / (2650.0 - 1000.0))) := by
  norm_num [_phi_from_density]

theorem phi_density_none : _phi_from_density none 2650.0 1000.0 = none := by
  norm_num [_phi_from_density]

/-! ### Orchestrator helper lemmas -/

theorem setCol_nrows (df : DataFrame) (c : String) (v : Column) :
    (df.setCol c v).nrows = df.nrows := by
  rw [DataFrame.setCol]
  split <;> rfl

theorem getCol_setCol_new_self (df : DataFrame) (c : String) (v : Column)
    (h : df.hasCol c = false) :
    (df.setCol c v).getCol c = some v := by
  have hf : df.cols.find? (fun p => p.1 == c) = none := by
    have h2 := h
    simp [DataFrame.hasCol, DataFrame.getCol] at h2
    simpa using h2
  simp [DataFrame.setCol, h, DataFrame.getCol, List.find?_append, hf]

theorem getCol_setCol_new_other (df : DataFrame) (c c' : String) (v : Column)
    (h : df.hasCol c = false) (hne : c' ≠ c) :
    (df.setCol c v).getCol c' = df.getCol c' := by
  have hne' : (c == c') = false := by simp [Ne.symm hne]
  simp [DataFrame.setCol, h, DataFrame.getCol, List.find?_append, hne']

theorem hasCol_setCol_self (df : DataFrame) (c : String) (v : Column)
    (h : df.hasCol c = false) : (df.setCol c v).hasCol c = true := by
  simp [DataFrame.hasCol, getCol_setCol_new_self df c v h]

/-- One orchestrator step (`if c not in df.columns: df[c] = w`) never
changes an existing column. -/
theorem step_preserves (d : DataFrame) (c : String) (w : Column) (t : String) (v : Column)
    (hv : d.getCol t = some v) :
    (if d.hasCol c then d else d.setCol c w).getCol t = some v := by
  by_cases hc : d.hasCol c
  · simp [hc, hv]
  · have hcf : d.hasCol c = false := by simpa using hc
    by_cases ht : t = c
    · subst ht
      simp [DataFrame.hasCol, hv] at hcf
    · simp [hcf, getCol_setCol_new_other d c t w hcf ht, hv]

theorem step_hasCol_self (d : DataFrame) (c : String) (w : Column) :
    (if d.hasCol c then d else d.setCol c w).hasCol c = true := by
  by_cases hc : d.hasCol c = true
  · rw [if_pos hc]
    exact hc
  · rw [if_neg hc]
    exact hasCol_setCol_self d c w (by simpa using hc)

theorem step_hasCol_mono (d : DataFrame) (c c' : String) (w : Column)
    (h : d.hasCol c' = true) :
    (if d.hasCol c then d else d.setCol c w).hasCol c' = true := by
  by_cases hc : d.hasCol c = true
  · rw [if_pos hc]
    exact h
  · rw [if_neg hc]
    have hcf : d.hasCol c = false := by simpa using hc
    by_cases ht : c' = c
    · subst ht
      simp [h] at hcf
    · unfold DataFrame.hasCol
      rw [getCol_setCol_new_other d c c' w hcf ht]
      exact h

/-! ### List assembly helpers for concrete tables -/

theorem list_eq_single {α : Type} (l : List α) (a : α)
    (hlen : l.length = 1) (h0 : l[0]? = some a) : l = [a] := by
  match l, hlen with
  | [x], _ =>
    simp at h0
    rw [h0]

theorem list_eq_pair {α : Type} (l : List α) (a b : α)
    (hlen : l.length = 2) (h0 : l[0]? = some a) (h1 : l[1]? = some b) : l = [a, b] := by
  match l, hlen with
  | [x, y], _ =>
    simp at h0 h1
    rw [h0, h1]

theorem list_eq_quad {α : Type} (l : List α) (a b c d : α)
    (hlen : l.length = 4) (h0 : l[0]? = some a) (h1 : l[1]? = some b)
    (h2 : l[2]? = some c) (h3 : l[3]? = some d) : l = [a, b, c, d] := by
  match l, hlen with
  | [x0, x1, x2, x3], _ =>
    simp at h0 h1 h2 h3
    rw [h0, h1, h2, h3]

/-- The three rule outcomes of one classification row, characterised:
`Potential Reservoir` iff rule 1 fires, `Pay Zone` iff rule 2 fires and
rule 1 does not, `Background` iff neither fires (`fillna(0)` defaults
applied inside `Option.getD`). -/
theorem fluid_class_row_iff (r g p : Option ℚ) :
    (fluid_class_row r g p = potential_label ↔
      100 ≤ r.getD 0 ∨ (50 ≤ g.getD 0 ∧ 0.05 ≤ p.getD 0))
    ∧ (fluid_class_row r g p = pay_zone_label ↔
      (¬(100 ≤ r.getD 0 ∨ (50 ≤ g.getD 0 ∧ 0.05 ≤ p.getD 0))
        ∧ (20 ≤ r.getD 0 ∨ 10 ≤ g.getD 0)))
    ∧ (fluid_class_row r g p = background_label ↔
      (¬(100 ≤ r.getD 0 ∨ (50 ≤ g.getD 0 ∧ 0.05 ≤ p.getD 0))
        ∧ ¬(20 ≤ r.getD 0 ∨ 10 ≤ g.getD 0))) := by
  unfold fluid_class_row
  by_cases h1 : 100 ≤ r.getD 0 ∨ (50 ≤ g.getD 0 ∧ 0.05 ≤ p.getD 0) <;>
    by_cases h2 : 20 ≤ r.getD 0 ∨ 10 ≤ g.getD 0 <;>
      simp [h1, h2, potential_label, pay_zone_label, background_label]

/-! ### Concrete test fixtures -/

/-- The four classification examples of the spec, one row each. -/
def dfC1 : DataFrame :=
  ⟨4, [(resist_col, Column.num [some 150, some 10, some 30, some 5]),
       (gas_col, Column.num [some 5, some 100, some 5, some 2]),
       (phi_out_col, Column.num [some 0.2, some 0.1, some 0.2, some 0.05])]⟩

/-- C1.  With the resistivity or gas column present, each row is classified
by the `cond_pot`/`cond_pay` cascade over the `fillna(0)` row values; the
cascade is exactly the spec's strict-priority rules (first conjunct gives
the row formula, second the rule characterisation, third the four
spec examples). -/
theorem C1_fluid_class_priority (df : DataFrame) (i : ℕ)
    (hcols : (df.getNum resist_col).isSome ∨ (df.getNum gas_col).isSome)
    (hi : i < df.nrows) :
    ((compute_fluid_class df phi_out_col)[i]? =
      some (fluid_class_row (rowVal df resist_col i) (rowVal df gas_col i)
        (rowVal df phi_out_col i)))
    ∧ (∀ r g p : Option ℚ,
      (fluid_class_row r g p = potential_label ↔
        100 ≤ r.getD 0 ∨ (50 ≤ g.getD 0 ∧ 0.05 ≤ p.getD 0))
      ∧ (fluid_class_row r g p = pay_zone_label ↔
        (¬(100 ≤ r.getD 0 ∨ (50 ≤ g.getD 0 ∧ 0.05 ≤ p.getD 0))
          ∧ (20 ≤ r.getD 0 ∨ 10 ≤ g.getD 0)))
      ∧ (fluid_class_row r g p = background_label ↔
        (¬(100 ≤ r.getD 0 ∨ (50 ≤ g.getD 0 ∧ 0.05 ≤ p.getD 0))
          ∧ ¬(20 ≤ r.getD 0 ∨ 10 ≤ g.getD 0))))
    ∧ compute_fluid_class dfC1 phi_out_col =
        [potential_label, potential_label, pay_zone_label, background_label] := by
  refine ⟨fluid_row df phi_out_col i hcols hi, fluid_class_row_iff, ?_⟩
  have hrow : ∀ j, j < 4 →
      (compute_fluid_class dfC1 phi_out_col)[j]? =
        some (fluid_class_row (rowVal dfC1 resist_col j) (rowVal dfC1 gas_col j)
          (rowVal dfC1 phi_out_col j)) := by
    intro j hj
    exact fluid_row dfC1 phi_out_col j (Or.inl rfl) hj
  have hr0 : rowVal dfC1 resist_col 0 = some 150 := rfl
  have hg0 : rowVal dfC1 gas_col 0 = some 5 := rfl
  have hp0 : rowVal dfC1 phi_out_col 0 = some 0.2 := rfl
  have hr1 : rowVal dfC1 resist_col 1 = some 10 := rfl
  have hg1 : rowVal dfC1 gas_col 1 = some 100 := rfl
  have hp1 : rowVal dfC1 phi_out_col 1 = some 0.1 := rfl
  have hr2 : rowVal dfC1 resist_col 2 = some 30 := rfl
  have hg2 : rowVal dfC1 gas_col 2 = some 5 := rfl
  have hp2 : rowVal dfC1 phi_out_col 2 = some 0.2 := rfl
  have hr3 : rowVal dfC1 resist_col 3 = some 5 := rfl
  have hg3 : rowVal dfC1 gas_col 3 = some 2 := rfl
  have hp3 : rowVal dfC1 phi_out_col 3 = some 0.05 := rfl
  apply list_eq_quad
  · rw [fluid_length]
    rfl
  · rw [hrow 0 (by norm_num), hr0, hg0, hp0]
    exact congrArg some ((fluid_class_row_iff _ _ _).1.mpr (Or.inl (by norm_num)))
  · rw [hrow 1 (by norm_num), hr1, hg1, hp1]
    exact congrArg some ((fluid_class_row_iff _ _ _).1.mpr (Or.inr (by norm_num)))
  · rw [hrow 2 (by norm_num), hr2, hg2, hp2]
    exact congrArg some ((fluid_class_row_iff _ _ _).2.1.mpr (by norm_num))
  · rw [hrow 3 (by norm_num), hr3, hg3, hp3]
    exact congrArg some ((fluid_class_row_iff _ _ _).2.2.mpr (by norm_num))

/-- Witness for C1 at row 0 of the four-example table. -/
theorem C1_fluid_class_priority_witness :
    (compute_fluid_class dfC1 phi_out_col)[0]? =
      some (fluid_class_row (rowVal dfC1 resist_col 0) (rowVal dfC1 gas_col 0)
        (rowVal dfC1 phi_out_col 0)) :=
  (C1_fluid_class_priority dfC1 0 (Or.inl rfl) (by decide)).1

/-- One row with high gas, high resistivity-free signal and no porosity
column, for C9. -/
def dfC9 : DataFrame :=
  ⟨1, [(resist_col, Column.num [some 150]), (gas_col, Column.num [some 99])]⟩

/-- C9.  A missing or null porosity value enters the classification as 0,
so the gas conjunct of rule 1 is false and such a row can reach
`Potential Reservoir` only via `resistivity >= 100`, however large the
gas value. -/
theorem C9_missing_porosity_default (r g : Option ℚ) :
    (fluid_class_row r g none = potential_label ↔ 100 ≤ r.getD 0)
    ∧ (∀ df : DataFrame, ∀ i : ℕ, i < df.nrows →
        ((df.getNum resist_col).isSome ∨ (df.getNum gas_col).isSome) →
        rowVal df phi_out_col i = none →
        ((compute_fluid_class df phi_out_col)[i]? = some potential_label ↔
          100 ≤ (rowVal df resist_col i).getD 0)) := by
  have key : ∀ r' g' : Option ℚ,
      (fluid_class_row r' g' none = potential_label ↔ 100 ≤ Option.getD r' 0) := by
    intro r' g'
    have h := (fluid_class_row_iff r' g' none).1
    norm_num at h
    exact h
  refine ⟨key r g, ?_⟩
  intro df i hi hcols hphi
  rw [fluid_row df phi_out_col i hcols hi, hphi]
  rw [Option.some_inj]
  exact key _ _

/-- Witness for C9: gas 99 with no porosity column is still only judged by
resistivity. -/
theorem C9_missing_porosity_default_witness :
    (compute_fluid_class dfC9 phi_out_col)[0]? = some potential_label ↔
      100 ≤ (rowVal dfC9 resist_col 0).getD 0 :=
  (C9_missing_porosity_default (some 150) (some 99)).2 dfC9 0 (by decide) (Or.inl rfl) rfl

/-- Modelled from the spec's words for C2 (refinement comparison only):
"the mean of the two individually clamped-to-[0,1] per-channel estimates",
density estimate via `(2650.0 - rho_bulk) / (2650.0 - 1000.0)`, neutron
estimate after percent normalisation, each clamped before averaging. -/
def spec_mean_of_clamped (b v : ℚ) : ℚ :=
  (clip01 ((2650.0 - b) / (2650.0 - 1000.0))
    + clip01 (if 1.5 < v then v / 100.0 else v)) / 2

/-- One row with bulk density 1825 (density estimate 0.5) and neutron
value 1.2 (not converted: below the 1.5 percent threshold, and unclamped). -/
def dfC2 : DataFrame :=
  ⟨1, [(bulk_col, Column.num [some 1825]), (neutron_col, Column.num [some 1.2])]⟩

/-- C2 counterexample: the code averages the *unclamped* neutron estimate
and clips only afterwards, giving 0.85 on this row; the claim's mean of
individually clamped estimates is 0.75. -/
theorem C2_counterexample :
    (compute_phi_combined dfC2)[0]? = some (some (17/20))
    ∧ spec_mean_of_clamped 1825 1.2 = 3/4
    ∧ ¬((17/20 : ℚ) = 3/4) := by
  have hd : clip01 ((2650.0 - 1825) / (2650.0 - 1000.0)) = 1/2 := by
    rw [show ((2650.0:ℚ) - 1825) / (2650.0 - 1000.0) = 1/2 by norm_num]
    exact clip01_of_mem _ (by norm_num) (by norm_num)
  refine ⟨?_, ?_, by norm_num⟩
  · rw [phi_row_both dfC2 [some 1825] [some 1.2] 0 rfl rfl (by decide)
      (some 1825) (some 1.2) rfl rfl]
    rw [phi_density_some, hd]
    have hnn : norm_neutron (some 1.2) = some 1.2 := by
      norm_num [norm_neutron]
    rw [hnn, nanmean_pair, Option.map_some']
    rw [show ((1:ℚ)/2 + 1.2) / 2 = 17/20 by norm_num]
    rw [clip01_of_mem _ (by norm_num) (by norm_num)]
  · unfold spec_mean_of_clamped
    rw [hd, if_neg (by norm_num)]
    rw [clip01_of_ge _ (by norm_num)]
    norm_num

/-- C2 (amended).  With both channels present and both row values finite,
the composite is the clamp-to-[0,1] of the mean of the density-clamped
estimate and the percent-normalised (unclamped) neutron estimate; this
equals the claim's mean of individually clamped estimates whenever the
normalised neutron value already lies in [0,1].  With exactly one of the
two values non-missing, the composite is the clamp of that single
available estimate (ignore-missing, not propagate-missing). -/
theorem C2_composite_mean (df : DataFrame) (bulk nc : NumCol) (i : ℕ)
    (hb : df.getNum bulk_col = some bulk) (hn : df.getNum neutron_col = some nc)
    (hi : i < df.nrows) :
    (∀ b v : ℚ, bulk[i]? = some (some b) → nc[i]? = some (some v) →
      ((compute_phi_combined df)[i]? =
        some (some (clip01 ((clip01 ((2650.0 - b) / (2650.0 - 1000.0))
          + (if 1.5 < v then v / 100.0 else v)) / 2)))
      ∧ (0 ≤ (if 1.5 < v then v / 100.0 else v) →
          (if 1.5 < v then v / 100.0 else v) ≤ 1 →
          (compute_phi_combined df)[i]? = some (some (spec_mean_of_clamped b v)))))
    ∧ (∀ b : ℚ, bulk[i]? = some (some b) → nc[i]? = some none →
        (compute_phi_combined df)[i]? =
          some (some (clip01 ((2650.0 - b) / (2650.0 - 1000.0)))))
    ∧ (∀ v : ℚ, bulk[i]? = some none → nc[i]? = some (some v) →
        (compute_phi_combined df)[i]? =
          some (some (clip01 (if 1.5 < v then v / 100.0 else v)))) := by
  refine ⟨?_, ?_, ?_⟩
  · intro b v hbv hnv
    have hmain : (compute_phi_combined df)[i]? =
        some (some (clip01 ((clip01 ((2650.0 - b) / (2650.0 - 1000.0))
          + (if 1.5 < v then v / 100.0 else v)) / 2))) := by
      rw [phi_row_both df bulk nc i hb hn hi (some b) (some v) hbv hnv]
      rw [phi_density_some]
      rw [show norm_neutron (some v) = some (if 1.5 < v then v / 100.0 else v) from rfl]
      rw [nanmean_pair, Option.map_some']
    refine ⟨hmain, ?_⟩
    intro h0 h1
    rw [hmain]
    unfold spec_mean_of_clamped
    rw [clip01_of_mem _ h0 h1]
    have hb0 := (clip01_bounds ((2650.0 - b) / (2650.0 - 1000.0))).1
    have hb1 := (clip01_bounds ((2650.0 - b) / (2650.0 - 1000.0))).2
    rw [clip01_of_mem _ (by linarith) (by linarith)]
  · intro b hbv hnv
    rw [phi_row_both df bulk nc i hb hn hi (some b) none hbv hnv]
    rw [phi_density_some]
    rw [show norm_neutron none = none from rfl]
    rw [nanmean_none_right, Option.map_some', clip01_idem]
  · intro v hbv hnv
    rw [phi_row_both df bulk nc i hb hn hi none (some v) hbv hnv]
    rw [phi_density_none]
    rw [show norm_neutron (some v) = some (if 1.5 < v then v / 100.0 else v) from rfl]
    rw [nanmean_none_left, Option.map_some']

/-- One row with bulk density 1825 and an in-range neutron value 0.3. -/
def dfC2w : DataFrame :=
  ⟨1, [(bulk_col, Column.num [some 1825]), (neutron_col, Column.num [some 0.3])]⟩

/-- Witness for C2 (amended): on an in-range row the composite equals the
spec's mean of clamped estimates. -/
theorem C2_composite_mean_witness :
    (compute_phi_combined dfC2w)[0]? = some (some (spec_mean_of_clamped 1825 0.3)) :=
  ((C2_composite_mean dfC2w [some 1825] [some 0.3] 0 rfl rfl (by decide)).1
    1825 0.3 rfl rfl).2 (by norm_num) (by norm_num)

/-- One row: depth 1000, null mud weight, exponent 0.9. -/
def dfC3w : DataFrame :=
  ⟨1, [(depth_col, Column.num [some 1000]), (mud_col, Column.num [(none : Option ℚ)]),
       (dc_col, Column.num [some 0.9])]⟩

/-- One row: depth 1000, mud weight 1200, null exponent. -/
def dfC10w : DataFrame :=
  ⟨1, [(depth_col, Column.num [some 1000]), (mud_col, Column.num [some 1200]),
       (dc_col, Column.num [(none : Option ℚ)])]⟩

/-- C3.  On the main branch (depth, mud-weight and drilling-exponent
columns all present) with finite depth `d` and exponent `e`, the output is
`max(0, mud * 9.80665 * depth * 0.00014503773773020923 + (1 - e) * 10000)`,
with a per-row null mud weight replaced by 1000.0 (`Option.getD`). -/
theorem C3_pore_pressure_formula (df : DataFrame) (mud depth dc : NumCol) (i : ℕ)
    (hm : df.getNum mud_col = some mud) (hd : df.getNum depth_col = some depth)
    (hc : df.getNum dc_col = some dc) (hi : i < df.nrows)
    (mw : Option ℚ) (d e : ℚ)
    (hmi : mud[i]? = some mw) (hdi : depth[i]? = some (some d))
    (hci : dc[i]? = some (some e)) :
    (compute_pore_pressure df)[i]? =
      some (some (max 0 (mw.getD 1000.0 * 9.80665 * d * 0.00014503773773020923
        + (1.0 - e) * 10000.0))) := by
  rw [pore_pressure_row df mud depth dc i hm hd hc hi mw (some d) (some e) hmi hdi hci]
  simp only [Option.map_some', Option.getD_some]
  congr 2
  rw [max_comm]
  congr 1
  norm_num

/-- Witness for C3: one row with null mud weight (falls back to 1000.0),
depth 1000, exponent 0.9. -/
theorem C3_pore_pressure_formula_witness :
    (compute_pore_pressure dfC3w)[0]? =
      some (some (max 0 ((none : Option ℚ).getD 1000.0 * 9.80665 * 1000
        * 0.00014503773773020923 + (1.0 - 0.9) * 10000.0))) :=
  C3_pore_pressure_formula dfC3w [(none : Option ℚ)] [some 1000] [some 0.9] 0
    rfl rfl rfl (by decide) none 1000 0.9 rfl rfl rfl

/-- C10.  When the drilling-exponent column exists but the row's exponent
is null, the output row is undefined — whatever the (even finite) mud
weight and depth baseline was; there is no per-row exponent fallback. -/
theorem C10_null_exponent (df : DataFrame) (mud depth dc : NumCol) (i : ℕ)
    (hm : df.getNum mud_col = some mud) (hd : df.getNum depth_col = some depth)
    (hc : df.getNum dc_col = some dc) (hi : i < df.nrows)
    (mw dv : Option ℚ)
    (hmi : mud[i]? = some mw) (hdi : depth[i]? = some dv)
    (hci : dc[i]? = some none) :
    (compute_pore_pressure df)[i]? = some none := by
  rw [pore_pressure_row df mud depth dc i hm hd hc hi mw dv none hmi hdi hci]
  rfl

/-- Witness for C10: finite mud weight 1200 and depth 1000, null exponent,
output undefined. -/
theorem C10_null_exponent_witness :
    (compute_pore_pressure dfC10w)[0]? = some none :=
  C10_null_exponent dfC10w [some 1200] [some 1000] [(none : Option ℚ)] 0
    rfl rfl rfl (by decide) (some 1200) (some 1000) rfl rfl rfl

/-- Every defined cell of the porosity composite is a clipped value. -/
theorem phi_cell_bounds (df : DataFrame) (i : ℕ) (q : ℚ)
    (h : (compute_phi_combined df)[i]? = some (some q)) : 0 ≤ q ∧ q ≤ 1 := by
  cases hb : df.getNum bulk_col with
  | none =>
    cases hn : df.getNum neutron_col with
    | none =>
      rw [phi_absent df hb hn, List.getElem?_replicate] at h
      split at h <;> simp at h
    | some nc2 =>
      simp [compute_phi_combined, hb, hn] at h
      obtain ⟨j, _, x, _, hcq⟩ := h
      rw [← hcq]
      exact clip01_bounds x
  | some bk =>
    cases hn : df.getNum neutron_col with
    | none =>
      simp [compute_phi_combined, hb, hn] at h
      obtain ⟨j, _, x, _, hcq⟩ := h
      rw [← hcq]
      exact clip01_bounds x
    | some nc2 =>
      simp [compute_phi_combined, hb, hn] at h
      obtain ⟨j, _, x, _, hcq⟩ := h
      rw [← hcq]
      exact clip01_bounds x

/-- The empty-channel table: one row, no columns at all. -/
def dfC5 : DataFrame := ⟨1, []⟩

/-- C5 counterexample: with every optional channel missing, the pressure
estimator returns a *defined* 0.0 for each row and the classifier returns
the *defined* class `Background`, not undefined columns; only the porosity
output is undefined. -/
theorem C5_counterexample :
    compute_pore_pressure dfC5 = [some 0]
    ∧ compute_fluid_class dfC5 phi_out_col = [background_label]
    ∧ compute_phi_combined dfC5 = [none]
    ∧ ¬(([some (0:ℚ)] : NumCol) = [(none : Option ℚ)]) := by
  refine ⟨?_, ?_, ?_, by simp⟩
  · rw [pore_pressure_all_absent dfC5 (Or.inl rfl) rfl rfl]
    rfl
  · rw [fluid_gate dfC5 phi_out_col rfl rfl]
    rfl
  · rw [phi_absent dfC5 rfl rfl]
    rfl

/-- C5 (amended).  All three estimators are total Lean functions and always
return one value per row (last conjunct, for every table).  When every
optional channel is missing, the porosity column is all-undefined, while
the classifier returns `Background` and the pressure estimator a defined
0.0 for every row — not undefined columns. -/
theorem C5_estimators_total (df : DataFrame)
    (hb : df.getNum bulk_col = none) (hn : df.getNum neutron_col = none)
    (hr : df.getNum resist_col = none) (hg : df.getNum gas_col = none)
    (hm : df.getNum mud_col = none) (hhy : df.getNum hydro_col = none)
    (hdc : df.getNum dc_col = none) :
    compute_phi_combined df = List.replicate df.nrows none
    ∧ compute_fluid_class df phi_out_col = List.replicate df.nrows background_label
    ∧ compute_pore_pressure df = List.replicate df.nrows (some 0)
    ∧ (∀ d2 : DataFrame, (compute_phi_combined d2).length = d2.nrows
        ∧ (compute_fluid_class d2 phi_out_col).length = d2.nrows
        ∧ (compute_pore_pressure d2).length = d2.nrows) :=
  ⟨phi_absent df hb hn, fluid_gate df phi_out_col hr hg,
    pore_pressure_all_absent df (Or.inl hm) hhy hdc,
    fun d2 => ⟨phi_length d2, fluid_length d2 phi_out_col, pore_pressure_length d2⟩⟩

/-- Witness for C5 (amended) on the empty-channel table. -/
theorem C5_estimators_total_witness :
    compute_pore_pressure dfC5 = List.replicate dfC5.nrows (some 0) :=
  (C5_estimators_total dfC5 rfl rfl rfl rfl rfl rfl rfl).2.2.1

/-- Two rows of bulk density only: the matrix density and the fluid
density. -/
def dfC6 : DataFrame := ⟨2, [(bulk_col, Column.num [some 2650, some 1000])]⟩

/-- C6.  Every defined porosity value lies in [0, 1]; with only the
bulk-density column, `rho_bulk = 2650` gives exactly 0 and
`rho_bulk = 1000` exactly 1. -/
theorem C6_phi_in_range (df : DataFrame) (i : ℕ) (q : ℚ) :
    ((compute_phi_combined df)[i]? = some (some q) → 0 ≤ q ∧ q ≤ 1)
    ∧ compute_phi_combined dfC6 = [some 0, some 1] := by
  constructor
  · exact phi_cell_bounds df i q
  · apply list_eq_pair
    · rw [phi_length]
      rfl
    · rw [phi_row_bulk dfC6 [some 2650, some 1000] 0 rfl rfl (by decide) (some 2650) rfl]
      rw [phi_density_some]
      rw [show ((2650.0:ℚ) - 2650) / (2650.0 - 1000.0) = 0 by norm_num]
      rw [clip01_of_le _ (by norm_num)]
      rw [nanmean_single, Option.map_some']
      rw [clip01_of_le _ (by norm_num)]
    · rw [phi_row_bulk dfC6 [some 2650, some 1000] 1 rfl rfl (by decide) (some 1000) rfl]
      rw [phi_density_some]
      rw [show ((2650.0:ℚ) - 1000) / (2650.0 - 1000.0) = 1 by norm_num]
      rw [clip01_of_ge _ (by norm_num)]
      rw [nanmean_single, Option.map_some']
      rw [clip01_of_ge _ (by norm_num)]

/-- Witness for C6 at the matrix-density row. -/
theorem C6_phi_in_range_witness : 0 ≤ (0:ℚ) ∧ (0:ℚ) ≤ 1 :=
  (C6_phi_in_range dfC6 0 0).1 (by
    rw [(C6_phi_in_range dfC6 0 0).2]
    rfl)

/-- Two rows differing only in depth (1000 < 2000), mud weight 1200,
drilling exponent 2.0: the anomaly is -10000 psi and both rows clamp
to 0. -/
def dfC7 : DataFrame :=
  ⟨2, [(depth_col, Column.num [some 1000, some 2000]),
       (mud_col, Column.num [some 1200, some 1200]),
       (dc_col, Column.num [some 2, some 2])]⟩

/-- C7 counterexample: two rows identical except for a strictly greater
depth can yield *equal* pressures (both 0), because the non-negativity
floor collapses distinct negative pre-clamp values; so pressure does not
strictly increase with depth unconditionally. -/
theorem C7_counterexample :
    (compute_pore_pressure dfC7)[0]? = some (some 0)
    ∧ (compute_pore_pressure dfC7)[1]? = some (some 0)
    ∧ ((1000:ℚ) < 2000) ∧ ¬((0:ℚ) < 0) := by
  refine ⟨?_, ?_, by norm_num, by norm_num⟩
  · rw [pore_pressure_row dfC7 [some 1200, some 1200] [some 1000, some 2000]
      [some 2, some 2] 0 rfl rfl rfl (by decide) (some 1200) (some 1000) (some 2)
      rfl rfl rfl]
    simp only [Option.map_some', Option.getD_some]
    rw [max_eq_right (by norm_num)]
  · rw [pore_pressure_row dfC7 [some 1200, some 1200] [some 1000, some 2000]
      [some 2, some 2] 1 rfl rfl rfl (by decide) (some 1200) (some 2000) (some 2)
      rfl rfl rfl]
    simp only [Option.map_some', Option.getD_some]
    rw [max_eq_right (by norm_num)]

/-- C7 (amended).  For fixed mud weight and exponent the per-row pressure
is `pressRow`; it is nondecreasing in depth for nonnegative mud weight,
strictly increasing between two depths whenever the mud weight is positive
and the smaller-depth pressure is positive (i.e. not clamped away by the
zero floor); and at identical nonnegative depth and mud weight, exponent
0.8 yields strictly greater pressure than exponent 1.0. -/
theorem C7_pressure_monotone (df : DataFrame) (mud depth dc : NumCol) (i j : ℕ)
    (hm : df.getNum mud_col = some mud) (hd : df.getNum depth_col = some depth)
    (hc : df.getNum dc_col = some dc) (hi : i < df.nrows) (hj : j < df.nrows)
    (m d1 d2 e : ℚ)
    (hmi : mud[i]? = some (some m)) (hmj : mud[j]? = some (some m))
    (hdi : depth[i]? = some (some d1)) (hdj : depth[j]? = some (some d2))
    (hci : dc[i]? = some (some e)) (hcj : dc[j]? = some (some e)) :
    ((compute_pore_pressure df)[i]? = some (some (pressRow m d1 e)))
    ∧ ((compute_pore_pressure df)[j]? = some (some (pressRow m d2 e)))
    ∧ (0 ≤ m → d1 ≤ d2 → pressRow m d1 e ≤ pressRow m d2 e)
    ∧ (0 < m → d1 < d2 → 0 < pressRow m d1 e → pressRow m d1 e < pressRow m d2 e)
    ∧ (0 ≤ m → 0 ≤ d1 → pressRow m d1 1.0 < pressRow m d1 0.8) := by
  refine ⟨?_, ?_, ?_, ?_, ?_⟩
  · rw [pore_pressure_row df mud depth dc i hm hd hc hi (some m) (some d1) (some e)
      hmi hdi hci]
    simp only [Option.map_some', Option.getD_some]
    rfl
  · rw [pore_pressure_row df mud depth dc j hm hd hc hj (some m) (some d2) (some e)
      hmj hdj hcj]
    simp only [Option.map_some', Option.getD_some]
    rfl
  · intro hm0 hd12
    unfold pressRow
    have h1 : m * 9.80665 * d1 ≤ m * 9.80665 * d2 :=
      mul_le_mul_of_nonneg_left hd12 (by positivity)
    have h2 : (m * 9.80665 * d1) * 0.00014503773773020923
        ≤ (m * 9.80665 * d2) * 0.00014503773773020923 :=
      mul_le_mul_of_nonneg_right h1 (by norm_num)
    exact max_le_max (add_le_add_right h2 _) le_rfl
  · intro hm0 hd12 hpos
    have h1 : m * 9.80665 * d1 < m * 9.80665 * d2 := by
      have hmp : (0:ℚ) < m * 9.80665 := by positivity
      exact mul_lt_mul_of_pos_left hd12 hmp
    have h2 : (m * 9.80665 * d1) * 0.00014503773773020923
        < (m * 9.80665 * d2) * 0.00014503773773020923 :=
      mul_lt_mul_of_pos_right h1 (by norm_num)
    have hX12 : (m * 9.80665 * d1) * 0.00014503773773020923 + (1.0 - e) * (1000.0 / 0.1)
        < (m * 9.80665 * d2) * 0.00014503773773020923 + (1.0 - e) * (1000.0 / 0.1) :=
      add_lt_add_right h2 _
    have hX1pos : 0 < (m * 9.80665 * d1) * 0.00014503773773020923
        + (1.0 - e) * (1000.0 / 0.1) := by
      by_contra hle
      push_neg at hle
      unfold pressRow at hpos
      rw [max_eq_right hle] at hpos
      exact lt_irrefl 0 hpos
    have hleft : pressRow m d1 e = (m * 9.80665 * d1) * 0.00014503773773020923
        + (1.0 - e) * (1000.0 / 0.1) := by
      unfold pressRow
      exact max_eq_left (le_of_lt hX1pos)
    rw [hleft]
    exact lt_of_lt_of_le hX12 (le_max_left _ _)
  · intro hm0 hd0
    unfold pressRow
    have hb : (0:ℚ) ≤ (m * 9.80665 * d1) * 0.00014503773773020923 := by positivity
    have h1 : ((1.0:ℚ) - 1.0) * (1000.0 / 0.1) = 0 := by norm_num
    have h2 : ((1.0:ℚ) - 0.8) * (1000.0 / 0.1) = 2000 := by norm_num
    rw [h1, h2, add_zero]
    rw [max_eq_left hb, max_eq_left (by linarith)]
    linarith

/-- Two rows differing only in depth, exponent 1.0: pressures are positive
and strictly increasing. -/
def dfC7w : DataFrame :=
  ⟨2, [(depth_col, Column.num [some 1000, some 2000]),
       (mud_col, Column.num [some 1200, some 1200]),
       (dc_col, Column.num [some 1, some 1])]⟩

/-- Witness for C7 (amended): with positive smaller-depth pressure the
increase is strict. -/
theorem C7_pressure_monotone_witness : pressRow 1200 1000 1 < pressRow 1200 2000 1 :=
  (C7_pressure_monotone dfC7w [some 1200, some 1200] [some 1000, some 2000]
    [some 1, some 1] 0 1 rfl rfl rfl (by decide) (by decide) 1200 1000 2000 1
    rfl rfl rfl rfl rfl rfl).2.2.2.1 (by norm_num) (by norm_num)
    (by
      unfold pressRow
      exact lt_max_iff.mpr (Or.inl (by norm_num)))

/-- C4.  A pre-existing target column (any of the three) keeps its exact
value through `compute_all_targets`; when all three pre-exist, the
returned table and the caller's table both equal the input table. -/
theorem C4_preexisting_preserved (df : DataFrame) (inplace : Bool) :
    (∀ t v, (t = phi_out_col ∨ t = fluid_out_col ∨ t = pressure_out_col) →
      df.getCol t = some v → ((compute_all_targets df inplace).1).getCol t = some v)
    ∧ (df.hasCol phi_out_col = true → df.hasCol fluid_out_col = true →
        df.hasCol pressure_out_col = true →
        (compute_all_targets df inplace).1 = df
          ∧ (compute_all_targets df inplace).2 = df) := by
  constructor
  · intro t v _ hv
    simp only [compute_all_targets]
    exact step_preserves _ _ _ t v (step_preserves _ _ _ t v (step_preserves _ _ _ t v hv))
  · intro h1 h2 h3
    have hres : (compute_all_targets df inplace).1 = df := by
      simp [compute_all_targets, h1, h2, h3]
    have h2' : (compute_all_targets df inplace).2 =
        if inplace then (compute_all_targets df inplace).1 else df := by
      cases inplace <;> rfl
    refine ⟨hres, ?_⟩
    rw [h2', hres]
    cases inplace <;> rfl

/-- A table whose three target columns already hold arbitrary values. -/
def dfC4 : DataFrame :=
  ⟨1, [(phi_out_col, Column.num [some 0.5]), (fluid_out_col, Column.str [pay_zone_label]),
       (pressure_out_col, Column.num [some 5])]⟩

/-- Witness for C4: the pre-existing categorical target survives
byte-identically and the whole table is unchanged. -/
theorem C4_preexisting_preserved_witness :
    ((compute_all_targets dfC4 true).1).getCol fluid_out_col = some (Column.str [pay_zone_label])
    ∧ (compute_all_targets dfC4 true).1 = dfC4 :=
  ⟨(C4_preexisting_preserved dfC4 true).1 fluid_out_col (Column.str [pay_zone_label])
      (Or.inr (Or.inl rfl)) rfl,
   ((C4_preexisting_preserved dfC4 true).2 rfl rfl rfl).1⟩

/-- C8.  `inplace=False` leaves the caller's table untouched while the
returned copy carries the targets; `inplace=True` makes the caller's
table the returned one; the computed table is identical in both modes,
and it always carries all three target columns. -/
theorem C8_inplace_modes (df : DataFrame) :
    ((compute_all_targets df false).2 = df)
    ∧ ((compute_all_targets df true).2 = (compute_all_targets df true).1)
    ∧ ((compute_all_targets df true).1 = (compute_all_targets df false).1)
    ∧ ((compute_all_targets df true).1.hasCol phi_out_col = true
        ∧ (compute_all_targets df true).1.hasCol fluid_out_col = true
        ∧ (compute_all_targets df true).1.hasCol pressure_out_col = true) := by
  refine ⟨rfl, rfl, rfl, ?_, ?_, ?_⟩
  · simp only [compute_all_targets]
    exact step_hasCol_mono _ _ _ _ (step_hasCol_mono _ _ _ _ (step_hasCol_self _ _ _))
  · simp only [compute_all_targets]
    exact step_hasCol_mono _ _ _ _ (step_hasCol_self _ _ _)
  · simp only [compute_all_targets]
    exact step_hasCol_self _ _ _
